import Mathlib

/-!
Verification of the picolibrary hardware-abstraction layer: I2C device
addressing (src/include/picolibrary/i2c.h), the GPIO active-low pin adapters
(src/include/picolibrary/gpio.h), and the MCP23008 register-cached driver and
pin drivers.  The MCP23008 driver and pin implementations are not present in
the source tree (only their unit tests and mock register cache are), so those
definitions are modelled from the specification, with call sequences and error
flow fixed by the unit tests in
src/test/unit/picolibrary/microchip/mcp23008/.
-/

namespace Picolib

/-- Error codes, from the error taxonomy of the spec and picolibrary/error.h
usage in i2c.h: invalid-argument, arbitration-lost, nonresponsive-device, and
opaque mock errors as used by the unit tests. -/
inductive Error_Code where
  | invalidArgument
  | arbitrationLost
  | nonresponsiveDevice
  | mockError (id : Nat)
deriving DecidableEq

deriving instance DecidableEq for Except

/-- I2C device address from src/include/picolibrary/i2c.h: stores the
transmitted form in a single byte field m_address. -/
structure Address where
  m_address : Nat
deriving DecidableEq

/-- The unvalidated numeric-form constructor Address( Numeric, address ):
m_address is static_cast to uint8_t of (address << 1), i.e. (address <<< 1)
reduced modulo 256. -/
def Address.ofNumeric (address : Nat) : Address :=
  ⟨(address <<< 1) % 256⟩

/-- The unvalidated transmitted-form constructor Address( Transmitted,
address ): stores the byte unchanged. -/
def Address.ofTransmitted (address : Nat) : Address :=
  ⟨address⟩

/-- Address::numeric(): m_address >> 1. -/
def Address.numeric (a : Address) : Nat :=
  a.m_address >>> 1

/-- Address::transmitted(): m_address. -/
def Address.transmitted (a : Address) : Nat :=
  a.m_address

/-- make_address( Address::Numeric, address ) from i2c.h: rejects addresses
above Numeric::MAX = 127 with INVALID_ARGUMENT, otherwise defers to the
unvalidated constructor. -/
def make_address_numeric (address : Nat) : Except Error_Code Address :=
  if 127 < address then .error .invalidArgument
  else .ok (Address.ofNumeric address)

/-- make_address( Address::Transmitted, address ) from i2c.h: rejects bytes
with the least significant bit set with INVALID_ARGUMENT, otherwise defers to
the unvalidated constructor. -/
def make_address_transmitted (address : Nat) : Except Error_Code Address :=
  if address &&& 1 ≠ 0 then .error .invalidArgument
  else .ok (Address.ofTransmitted address)

/-- Pin state from src/include/picolibrary/gpio.h: wraps a single boolean
m_is_high. -/
structure Pin_State where
  m_is_high : Bool
deriving DecidableEq

/-- Pin_State::is_high(). -/
def Pin_State.is_high (s : Pin_State) : Bool :=
  s.m_is_high

/-- Pin_State::is_low(). -/
def Pin_State.is_low (s : Pin_State) : Bool :=
  ! s.m_is_high

/-- Initial pin state from gpio.h. -/
inductive Initial_Pin_State where
  | HIGH
  | LOW
deriving DecidableEq

/-- Initial internal pull-up resistor state from gpio.h. -/
inductive Initial_Pull_Up_State where
  | ENABLED
  | DISABLED
deriving DecidableEq

/-- A pin implementation over an abstract hardware state type, giving the
operations of the gpio.h I/O pin concept that the active-low adapters
manipulate.  Stateful operations return their result together with the
updated hardware state. -/
structure PinImpl (σ : Type) where
  state : σ → Except Error_Code Pin_State
  transition_to_high : σ → Except Error_Code Unit × σ
  transition_to_low : σ → Except Error_Code Unit × σ
  toggle : σ → Except Error_Code Unit × σ

/-- Active_Low_Input_Pin::state() from gpio.h: call the state() of the
underlying pin, return any error unchanged, otherwise return the negation of
is_high(). -/
def Active_Low_Input_Pin.state {σ : Type} (P : PinImpl σ) (s : σ) :
    Except Error_Code Pin_State :=
  match P.state s with
  | .error e => .error e
  | .ok result => .ok ⟨! Pin_State.is_high result⟩

/-- The Active_Low_Input_Pin adapter from gpio.h: inherits every operation of
the underlying pin and overrides state(). -/
def Active_Low_Input_Pin.adapt {σ : Type} (P : PinImpl σ) : PinImpl σ :=
  { P with state := Active_Low_Input_Pin.state P }

/-- The Active_Low_Output_Pin adapter from gpio.h: transition_to_high() calls
the underlying transition_to_low() and transition_to_low() calls the
underlying transition_to_high(); state() and toggle() are inherited. -/
def Active_Low_Output_Pin.adapt {σ : Type} (P : PinImpl σ) : PinImpl σ :=
  { P with
    transition_to_high := P.transition_to_low
    transition_to_low := P.transition_to_high }

/-- The Active_Low_IO_Pin adapter from gpio.h: the output adapter layered over
the input adapter. -/
def Active_Low_IO_Pin.adapt {σ : Type} (P : PinImpl σ) : PinImpl σ :=
  Active_Low_Output_Pin.adapt (Active_Low_Input_Pin.adapt P)

/-- MCP23008 register identifiers, from the mock register cache in
src/include/picolibrary/testing/unit/microchip/mcp23008.h. -/
inductive Register where
  | iodir
  | ipol
  | gpinten
  | defval
  | intcon
  | iocon
  | gppu
  | gpio
  | olat
deriving DecidableEq

/-- Modelled from the spec: the Register Cache of the MCP23008 Driver (the
driver source is absent from src/), a mapping from each register to an 8-bit
value, mirrored by the mock register cache in
src/include/picolibrary/testing/unit/microchip/mcp23008.h. -/
structure Register_Cache where
  iodir : Nat
  ipol : Nat
  gpinten : Nat
  defval : Nat
  intcon : Nat
  iocon : Nat
  gppu : Nat
  gpio : Nat
  olat : Nat
deriving DecidableEq

/-- Modelled from the spec: the documented power-on-reset defaults (direction
all-bits-input, every other register zero). -/
def Register_Cache.por : Register_Cache :=
  ⟨255, 0, 0, 0, 0, 0, 0, 0, 0⟩

/-- Modelled from the spec: Register_Cache get(register). -/
def Register_Cache.get (c : Register_Cache) : Register → Nat
  | .iodir => c.iodir
  | .ipol => c.ipol
  | .gpinten => c.gpinten
  | .defval => c.defval
  | .intcon => c.intcon
  | .iocon => c.iocon
  | .gppu => c.gppu
  | .gpio => c.gpio
  | .olat => c.olat

/-- Modelled from the spec: Register_Cache set(register, byte); the cache
fields are 8-bit, so the stored value is reduced modulo 256. -/
def Register_Cache.set (c : Register_Cache) (r : Register) (value : Nat) :
    Register_Cache :=
  match r with
  | .iodir => { c with iodir := value % 256 }
  | .ipol => { c with ipol := value % 256 }
  | .gpinten => { c with gpinten := value % 256 }
  | .defval => { c with defval := value % 256 }
  | .intcon => { c with intcon := value % 256 }
  | .iocon => { c with iocon := value % 256 }
  | .gppu => { c with gppu := value % 256 }
  | .gpio => { c with gpio := value % 256 }
  | .olat => { c with olat := value % 256 }

/-- A Driver call observed by a pin operation: a cached register read (no bus
transaction), a forced bus read, or a bus write, matching the mock Driver
methods exercised by the unit tests. -/
inductive Event where
  | read_cached (r : Register) (value : Nat)
  | read_forced (r : Register) (result : Except Error_Code Nat)
  | write (r : Register) (value : Nat) (result : Except Error_Code Unit)
deriving DecidableEq

/-- The external bus-controller transport, an excluded collaborator: for each
register transaction it either yields a byte (or acknowledges a write) or
fails with an error code. -/
structure Bus where
  read : Register → Except Error_Code Nat
  write : Register → Nat → Except Error_Code Unit

/-- Modelled from the spec: the MCP23008 Driver couples a bus handle and a
device address with exactly one Register Cache; only the cache is relevant to
the claims, the bus being passed explicitly to each operation. -/
structure Driver where
  cache : Register_Cache
deriving DecidableEq

/-- Result of a fallible Driver or pin operation: the returned value or
error, the Driver state after the operation, and the Driver calls made. -/
structure OpResult (α : Type) where
  result : Except Error_Code α
  driver : Driver
  trace : List Event

/-- Modelled from the spec: the Driver write_R(value) operation shape — a
full bus write transaction; on success the cache entry for R is set to the
written value, on failure the cache is untouched and the error is
returned. -/
def Driver.write_reg (bus : Bus) (d : Driver) (r : Register) (value : Nat) :
    OpResult Unit :=
  match bus.write r value with
  | .error e =>
    { result := .error e, driver := d, trace := [Event.write r value (.error e)] }
  | .ok _ =>
    { result := .ok (), driver := ⟨Register_Cache.set d.cache r value⟩,
      trace := [Event.write r value (.ok ())] }

/-- Modelled from the spec: the Driver forced read read_R() operation shape
— a full bus read transaction; on success the cache entry for R is refreshed
and the byte returned, on failure the cache is untouched and the error is
returned. -/
def Driver.read_reg (bus : Bus) (d : Driver) (r : Register) : OpResult Nat :=
  match bus.read r with
  | .error e =>
    { result := .error e, driver := d, trace := [Event.read_forced r (.error e)] }
  | .ok value =>
    { result := .ok value, driver := ⟨Register_Cache.set d.cache r value⟩,
      trace := [Event.read_forced r (.ok value)] }

/-- The complement of an 8-bit mask: old & ~mask in the source becomes
old &&& compl8 mask for masks below 256. -/
def compl8 (mask : Nat) : Nat :=
  255 ^^^ mask

/-- Modelled from the spec: the Driver pull-up helper enable_pull_up( mask )
exercised by the internally-pulled-up input pin unit test — a read-modify-write
of the pull-up register setting the masked bits. -/
def Driver.enable_pull_up (bus : Bus) (d : Driver) (mask : Nat) : OpResult Unit :=
  let old := d.cache.gppu
  let w := Driver.write_reg bus d .gppu (old ||| mask)
  { w with trace := Event.read_cached .gppu old :: w.trace }

/-- Modelled from the spec: the Driver pull-up helper disable_pull_up( mask )
— a read-modify-write of the pull-up register clearing the masked bits. -/
def Driver.disable_pull_up (bus : Bus) (d : Driver) (mask : Nat) : OpResult Unit :=
  let old := d.cache.gppu
  let w := Driver.write_reg bus d .gppu (old &&& compl8 mask)
  { w with trace := Event.read_cached .gppu old :: w.trace }

/-- Modelled from the spec: the Driver helper state( mask ) exercised by the
internally-pulled-up input pin unit test — a forced read of the input-level
register, returning the masked byte. -/
def Driver.state (bus : Bus) (d : Driver) (mask : Nat) : OpResult Nat :=
  let r := Driver.read_reg bus d .gpio
  match r.result with
  | .error e => { result := .error e, driver := r.driver, trace := r.trace }
  | .ok v => { result := .ok (v &&& mask), driver := r.driver, trace := r.trace }

/-- Modelled from the spec: the Push_Pull_IO_Pin handle — a borrowed Driver
handle (m_driver, absent for a detached pin) and a bit mask. -/
structure Push_Pull_IO_Pin where
  m_driver : Bool
  m_mask : Nat
deriving DecidableEq

/-- A default-constructed (detached) Push_Pull_IO_Pin: no driver handle. -/
def Push_Pull_IO_Pin.detached : Push_Pull_IO_Pin :=
  ⟨false, 0⟩

/-- The (Driver, mask) constructor: attached, holding the 8-bit mask. -/
def Push_Pull_IO_Pin.attach (mask : Nat) : Push_Pull_IO_Pin :=
  ⟨true, mask % 256⟩

/-- Move construction: the target receives the handle and mask of the source,
which is left detached. -/
def Push_Pull_IO_Pin.move (p : Push_Pull_IO_Pin) :
    Push_Pull_IO_Pin × Push_Pull_IO_Pin :=
  (p, ⟨false, 0⟩)

/-- Modelled from the spec: the level value written by initialize — the
output-latch byte with the masked bit set for HIGH or cleared for LOW. -/
def init_level_value (st : Initial_Pin_State) (old mask : Nat) : Nat :=
  match st with
  | .HIGH => old ||| mask
  | .LOW => old &&& compl8 mask

/-- Modelled from the spec: Push_Pull_IO_Pin member initialize( initial_pin_state ),
with the call sequence fixed by TEST( initialize, worksProperly ) and the
error tests: cached read of the level register, write of the masked level
byte, and — only if that write succeeded — cached read of the direction
register and write clearing the masked direction bit (output). -/
def Push_Pull_IO_Pin.initialize (bus : Bus) (p : Push_Pull_IO_Pin) (d : Driver)
    (st : Initial_Pin_State) : OpResult Unit :=
  if p.m_driver then
    let old_gpio := d.cache.gpio
    let w1 := Driver.write_reg bus d .gpio (init_level_value st old_gpio p.m_mask)
    match w1.result with
    | .error e =>
      { result := .error e, driver := w1.driver,
        trace := Event.read_cached .gpio old_gpio :: w1.trace }
    | .ok _ =>
      let old_iodir := w1.driver.cache.iodir
      let w2 := Driver.write_reg bus w1.driver .iodir (old_iodir &&& compl8 p.m_mask)
      { result := w2.result, driver := w2.driver,
        trace := (Event.read_cached .gpio old_gpio :: w1.trace)
          ++ Event.read_cached .iodir old_iodir :: w2.trace }
  else
    { result := .ok (), driver := d, trace := [] }

/-- Modelled from the spec: Push_Pull_IO_Pin::transition_to_high() — cached
level read, then one write of old ||| mask, error propagated. -/
def Push_Pull_IO_Pin.transition_to_high (bus : Bus) (p : Push_Pull_IO_Pin)
    (d : Driver) : OpResult Unit :=
  if p.m_driver then
    let old := d.cache.gpio
    let w := Driver.write_reg bus d .gpio (old ||| p.m_mask)
    { w with trace := Event.read_cached .gpio old :: w.trace }
  else
    { result := .ok (), driver := d, trace := [] }

/-- Modelled from the spec: Push_Pull_IO_Pin::transition_to_low() — cached
level read, then one write of old &&& compl8 mask, error propagated. -/
def Push_Pull_IO_Pin.transition_to_low (bus : Bus) (p : Push_Pull_IO_Pin)
    (d : Driver) : OpResult Unit :=
  if p.m_driver then
    let old := d.cache.gpio
    let w := Driver.write_reg bus d .gpio (old &&& compl8 p.m_mask)
    { w with trace := Event.read_cached .gpio old :: w.trace }
  else
    { result := .ok (), driver := d, trace := [] }

/-- Modelled from the spec: Push_Pull_IO_Pin::toggle() — cached level read,
then one write of old ^^^ mask, error propagated. -/
def Push_Pull_IO_Pin.toggle (bus : Bus) (p : Push_Pull_IO_Pin) (d : Driver) :
    OpResult Unit :=
  if p.m_driver then
    let old := d.cache.gpio
    let w := Driver.write_reg bus d .gpio (old ^^^ p.m_mask)
    { w with trace := Event.read_cached .gpio old :: w.trace }
  else
    { result := .ok (), driver := d, trace := [] }

/-- Modelled from the spec: Push_Pull_IO_Pin::state() — a forced read of the
input-level register, testing the masked bit, errors propagated. -/
def Push_Pull_IO_Pin.state (bus : Bus) (p : Push_Pull_IO_Pin) (d : Driver) :
    OpResult Pin_State :=
  if p.m_driver then
    let r := Driver.read_reg bus d .gpio
    match r.result with
    | .error e => { result := .error e, driver := r.driver, trace := r.trace }
    | .ok v =>
      { result := .ok ⟨decide (v &&& p.m_mask ≠ 0)⟩, driver := r.driver,
        trace := r.trace }
  else
    { result := .ok ⟨false⟩, driver := d, trace := [] }

/-- Modelled from the spec: the Push_Pull_IO_Pin teardown performed by the
destructor and by move assignment over an attached pin, with the call
sequence fixed by TEST( constructorMove, worksProperly ) and both destructor
error tests: cached direction read, write of old_iodir ||| mask (direction
back to input), then cached level read and write of old_gpio &&& compl8 mask
(level low); both write results are discarded and a detached pin performs no
calls. -/
def Push_Pull_IO_Pin.disable (bus : Bus) (p : Push_Pull_IO_Pin) (d : Driver) :
    Driver × List Event :=
  if p.m_driver then
    let old_iodir := d.cache.iodir
    let w1 := Driver.write_reg bus d .iodir (old_iodir ||| p.m_mask)
    let old_gpio := w1.driver.cache.gpio
    let w2 := Driver.write_reg bus w1.driver .gpio (old_gpio &&& compl8 p.m_mask)
    (w2.driver,
      (Event.read_cached .iodir old_iodir :: w1.trace)
        ++ Event.read_cached .gpio old_gpio :: w2.trace)
  else
    (d, [])

/-- Modelled from the spec: the Internally_Pulled_Up_Input_Pin handle. -/
structure Internally_Pulled_Up_Input_Pin where
  m_driver : Bool
  m_mask : Nat
deriving DecidableEq

/-- A default-constructed (detached) Internally_Pulled_Up_Input_Pin. -/
def Internally_Pulled_Up_Input_Pin.detached : Internally_Pulled_Up_Input_Pin :=
  ⟨false, 0⟩

/-- The (Driver, mask) constructor for the internally-pulled-up input pin. -/
def Internally_Pulled_Up_Input_Pin.attach (mask : Nat) :
    Internally_Pulled_Up_Input_Pin :=
  ⟨true, mask % 256⟩

/-- Move construction for the internally-pulled-up input pin: the source is
left detached. -/
def Internally_Pulled_Up_Input_Pin.move (p : Internally_Pulled_Up_Input_Pin) :
    Internally_Pulled_Up_Input_Pin × Internally_Pulled_Up_Input_Pin :=
  (p, ⟨false, 0⟩)

/-- Modelled from the spec: Internally_Pulled_Up_Input_Pin member initialize(
initial_pull_up_state ) delegates to the Driver pull-up helper selected by
the initial state, as fixed by TEST( initialize, worksProperly ). -/
def Internally_Pulled_Up_Input_Pin.initialize (bus : Bus)
    (p : Internally_Pulled_Up_Input_Pin) (d : Driver)
    (ips : Initial_Pull_Up_State) : OpResult Unit :=
  if p.m_driver then
    match ips with
    | .ENABLED => Driver.enable_pull_up bus d p.m_mask
    | .DISABLED => Driver.disable_pull_up bus d p.m_mask
  else
    { result := .ok (), driver := d, trace := [] }

/-- Modelled from the spec: Internally_Pulled_Up_Input_Pin::enable_pull_up()
delegates to the Driver helper. -/
def Internally_Pulled_Up_Input_Pin.enable_pull_up (bus : Bus)
    (p : Internally_Pulled_Up_Input_Pin) (d : Driver) : OpResult Unit :=
  if p.m_driver then Driver.enable_pull_up bus d p.m_mask
  else { result := .ok (), driver := d, trace := [] }

/-- Modelled from the spec: Internally_Pulled_Up_Input_Pin::disable_pull_up()
delegates to the Driver helper. -/
def Internally_Pulled_Up_Input_Pin.disable_pull_up (bus : Bus)
    (p : Internally_Pulled_Up_Input_Pin) (d : Driver) : OpResult Unit :=
  if p.m_driver then Driver.disable_pull_up bus d p.m_mask
  else { result := .ok (), driver := d, trace := [] }

/-- Modelled from the spec: Internally_Pulled_Up_Input_Pin::state() — the
masked forced read of the input-level register via the Driver helper,
converted to a pin state, as fixed by TEST( state, worksProperly ). -/
def Internally_Pulled_Up_Input_Pin.state (bus : Bus)
    (p : Internally_Pulled_Up_Input_Pin) (d : Driver) : OpResult Pin_State :=
  if p.m_driver then
    let r := Driver.state bus d p.m_mask
    match r.result with
    | .error e => { result := .error e, driver := r.driver, trace := r.trace }
    | .ok v =>
      { result := .ok ⟨decide (v ≠ 0)⟩, driver := r.driver, trace := r.trace }
  else
    { result := .ok ⟨false⟩, driver := d, trace := [] }

/-- Modelled from the spec: the Internally_Pulled_Up_Input_Pin teardown
performed by the destructor and by move assignment over an attached pin, as
fixed by TEST( destructor, disablePullUpError ): one disable_pull_up( mask )
whose error is discarded; a detached pin performs no calls. -/
def Internally_Pulled_Up_Input_Pin.disable (bus : Bus)
    (p : Internally_Pulled_Up_Input_Pin) (d : Driver) : Driver × List Event :=
  if p.m_driver then
    let w := Driver.disable_pull_up bus d p.m_mask
    (w.driver, w.trace)
  else
    (d, [])

/-- The register-value pairs of the bus writes occurring in a trace. -/
def writesOf (tr : List Event) : List (Register × Nat) :=
  tr.filterMap fun e =>
    match e with
    | .write r v _ => some (r, v)
    | _ => none

/-- The index of the first bus write to a given register in a trace. -/
def firstWriteIdx (tr : List Event) (r : Register) : Option Nat :=
  tr.findIdx? fun e =>
    match e with
    | .write r2 _ _ => decide (r2 = r)
    | _ => false

/-- The value written by an event pair as produced by writesOf. -/
def agrees_outside (mask old v : Nat) : Prop :=
  ∀ i, mask.testBit i = false → v.testBit i = old.testBit i

/-- A bus on which every transaction succeeds, reads returning zero. -/
def busOK : Bus :=
  { read := fun _ => .ok 0, write := fun _ _ => .ok () }

/-- A bus on which every transaction fails with a mock error. -/
def busFail : Bus :=
  { read := fun _ => .error (.mockError 7), write := fun _ _ => .error (.mockError 7) }

/-- A Driver whose cache holds the power-on-reset defaults. -/
def driver0 : Driver :=
  ⟨Register_Cache.por⟩

/-- A concrete well-behaved example pin over a boolean hardware level, used
to evaluate the active-low adapters on concrete inputs. -/
def examplePin : PinImpl Bool :=
  { state := fun s => .ok ⟨s⟩
    transition_to_high := fun _ => (.ok (), true)
    transition_to_low := fun _ => (.ok (), false)
    toggle := fun s => (.ok (), !s) }

/-- Reading back the register just set yields the stored byte. -/
theorem Register_Cache.get_set_self (c : Register_Cache) (r : Register) (v : Nat) :
    Register_Cache.get (Register_Cache.set c r v) r = v % 256 := by
  cases r <;> rfl

/-- The result of write_R(v) is exactly the bus write outcome. -/
theorem Driver.write_reg_result (bus : Bus) (d : Driver) (r : Register) (v : Nat) :
    (Driver.write_reg bus d r v).result = bus.write r v := by
  cases h : bus.write r v <;> simp [Driver.write_reg, h]

/-- write_R(v) makes exactly one bus write, carrying the bus outcome. -/
theorem Driver.write_reg_trace (bus : Bus) (d : Driver) (r : Register) (v : Nat) :
    (Driver.write_reg bus d r v).trace = [Event.write r v (bus.write r v)] := by
  cases h : bus.write r v <;> simp [Driver.write_reg, h]

/-- On a successful bus write the cache entry is set to the written value. -/
theorem Driver.write_reg_driver_ok (bus : Bus) (d : Driver) (r : Register) (v : Nat)
    (h : bus.write r v = .ok ()) :
    (Driver.write_reg bus d r v).driver = ⟨Register_Cache.set d.cache r v⟩ := by
  simp [Driver.write_reg, h]

/-- On a failed bus write the Driver, hence the whole cache, is untouched. -/
theorem Driver.write_reg_driver_error (bus : Bus) (d : Driver) (r : Register) (v : Nat)
    (e : Error_Code) (h : bus.write r v = .error e) :
    (Driver.write_reg bus d r v).driver = d := by
  simp [Driver.write_reg, h]

/-- The numeric accessor applied to the unvalidated numeric constructor
reduces the input modulo 128. -/
theorem Address.ofNumeric_numeric (a : Nat) :
    Address.numeric (Address.ofNumeric a) = a % 128 := by
  simp only [Address.numeric, Address.ofNumeric, Nat.shiftLeft_eq,
    Nat.shiftRight_eq_div_pow, pow_one]
  omega

/-- Claim C8: make_address on a numeric address at most 127 succeeds and the
numeric form of the resulting address equals the input, while larger inputs fail with
invalid-argument; make_address on a transmitted byte with bit 0 clear
succeeds and the transmitted form of the resulting address equals the input, while inputs
with bit 0 set fail with invalid-argument. -/
theorem make_address_spec :
    (∀ a : Nat, a ≤ 127 →
      make_address_numeric a = .ok (Address.ofNumeric a)
        ∧ Address.numeric (Address.ofNumeric a) = a)
  ∧ (∀ a : Nat, 127 < a → make_address_numeric a = .error .invalidArgument)
  ∧ (∀ t : Nat, t &&& 1 = 0 →
      make_address_transmitted t = .ok (Address.ofTransmitted t)
        ∧ Address.transmitted (Address.ofTransmitted t) = t)
  ∧ (∀ t : Nat, t &&& 1 ≠ 0 →
      make_address_transmitted t = .error .invalidArgument) := by
  refine ⟨fun a ha => ⟨?_, ?_⟩, fun a ha => ?_, fun t ht => ⟨?_, rfl⟩, fun t ht => ?_⟩
  · simp [make_address_numeric, Nat.not_lt.mpr ha]
  · rw [Address.ofNumeric_numeric]
    omega
  · simp [make_address_numeric, ha]
  · simp [make_address_transmitted, ht]
  · have hand := Nat.and_one_is_mod t
    have hm2 : t % 2 = 1 := by omega
    simp [make_address_transmitted, Nat.and_one_is_mod, hm2]

/-- Witness for claim C8 at the concrete inputs 5, 200, 6 and 7. -/
theorem make_address_spec_witness :
    (make_address_numeric 5 = .ok (Address.ofNumeric 5)
        ∧ Address.numeric (Address.ofNumeric 5) = 5)
  ∧ make_address_numeric 200 = .error .invalidArgument
  ∧ (make_address_transmitted 6 = .ok (Address.ofTransmitted 6)
        ∧ Address.transmitted (Address.ofTransmitted 6) = 6)
  ∧ make_address_transmitted 7 = .error .invalidArgument :=
  ⟨make_address_spec.1 5 (by decide), make_address_spec.2.1 200 (by decide),
   make_address_spec.2.2.1 6 (by decide), make_address_spec.2.2.2 7 (by decide)⟩

/-- Claim C10: the unvalidated numeric constructor never rejects but wraps —
the stored transmitted form is (2 * a) mod 256, the numeric accessor returns
a mod 128, and the numeric round trip holds exactly for inputs below 128. -/
theorem address_numeric_constructor_wraps (a : Nat) :
    Address.transmitted (Address.ofNumeric a) = (2 * a) % 256
  ∧ Address.numeric (Address.ofNumeric a) = a % 128
  ∧ (Address.numeric (Address.ofNumeric a) = a ↔ a < 128) := by
  refine ⟨?_, Address.ofNumeric_numeric a, ?_⟩
  · simp [Address.transmitted, Address.ofNumeric, Nat.shiftLeft_eq, pow_one,
      Nat.mul_comm]
  · rw [Address.ofNumeric_numeric]
    omega

/-- Claim C1: for every register R and 8-bit value v, a successful write_R(v)
makes the cached read R() return v, and a failed write_R(v) returns the error
and leaves the Driver — hence the cached read — exactly as before the call. -/
theorem write_reg_cache_consistency (bus : Bus) (d : Driver) (r : Register)
    (v : Nat) (hv : v < 256) :
    (bus.write r v = .ok () →
      (Driver.write_reg bus d r v).result = .ok ()
        ∧ Register_Cache.get (Driver.write_reg bus d r v).driver.cache r = v)
  ∧ (∀ e, bus.write r v = .error e →
      (Driver.write_reg bus d r v).result = .error e
        ∧ (Driver.write_reg bus d r v).driver = d) := by
  constructor
  · intro h
    rw [Driver.write_reg_result, Driver.write_reg_driver_ok bus d r v h, h]
    exact ⟨rfl, by rw [Register_Cache.get_set_self]; omega⟩
  · intro e h
    rw [Driver.write_reg_result, Driver.write_reg_driver_error bus d r v e h, h]
    exact ⟨rfl, rfl⟩

/-- Witness for claim C1: a successful write of 5 to the level register on
the power-on Driver caches 5, and a failed write leaves the Driver intact. -/
theorem write_reg_cache_consistency_witness :
    ((Driver.write_reg busOK driver0 .gpio 5).result = .ok ()
      ∧ Register_Cache.get (Driver.write_reg busOK driver0 .gpio 5).driver.cache .gpio = 5)
  ∧ ((Driver.write_reg busFail driver0 .gpio 5).result = .error (.mockError 7)
      ∧ (Driver.write_reg busFail driver0 .gpio 5).driver = driver0) :=
  ⟨(write_reg_cache_consistency busOK driver0 .gpio 5 (by decide)).1 rfl,
   (write_reg_cache_consistency busFail driver0 .gpio 5 (by decide)).2
     (.mockError 7) rfl⟩

/-- Claim C6 counterexample: over the concrete example pin, the adapted I/O
pin transition_to_high() followed by state() reports high — is_low is
false — not low as the claim states. -/
theorem active_low_round_trip_counterexample :
    ((Active_Low_IO_Pin.adapt examplePin).transition_to_high false).1 = .ok ()
  ∧ (Active_Low_IO_Pin.adapt examplePin).state
      ((Active_Low_IO_Pin.adapt examplePin).transition_to_high false).2 = .ok ⟨true⟩
  ∧ Pin_State.is_low ⟨true⟩ = false := by
  decide

/-- Claim C6 (amended): state() of the active-low adapter returns the
logical negation of the underlying pin state with errors propagated unchanged, its
transition_to_high() calls the underlying transition_to_low() and vice versa;
hence for an adapted pin over a well-behaved underlying pin,
transition_to_high() drives the underlying pin low and a following state()
reports high, while transition_to_low() drives the underlying pin high and a
following state() reports low. -/
theorem active_low_adapter_spec {σ : Type} (P : PinImpl σ) :
    (∀ s e, P.state s = .error e →
      (Active_Low_Input_Pin.adapt P).state s = .error e)
  ∧ (∀ s ps, P.state s = .ok ps →
      (Active_Low_Input_Pin.adapt P).state s = .ok ⟨! Pin_State.is_high ps⟩)
  ∧ (Active_Low_Output_Pin.adapt P).transition_to_high = P.transition_to_low
  ∧ (Active_Low_Output_Pin.adapt P).transition_to_low = P.transition_to_high
  ∧ (∀ s, (P.transition_to_low s).1 = .ok () →
      P.state (P.transition_to_low s).2 = .ok ⟨false⟩ →
      ((Active_Low_IO_Pin.adapt P).transition_to_high s).1 = .ok ()
        ∧ (Active_Low_IO_Pin.adapt P).state
            ((Active_Low_IO_Pin.adapt P).transition_to_high s).2 = .ok ⟨true⟩)
  ∧ (∀ s, (P.transition_to_high s).1 = .ok () →
      P.state (P.transition_to_high s).2 = .ok ⟨true⟩ →
      ((Active_Low_IO_Pin.adapt P).transition_to_low s).1 = .ok ()
        ∧ (Active_Low_IO_Pin.adapt P).state
            ((Active_Low_IO_Pin.adapt P).transition_to_low s).2 = .ok ⟨false⟩) := by
  refine ⟨fun s e h => ?_, fun s ps h => ?_, rfl, rfl,
    fun s h1 h2 => ⟨h1, ?_⟩, fun s h1 h2 => ⟨h1, ?_⟩⟩
  · simp [Active_Low_Input_Pin.adapt, Active_Low_Input_Pin.state, h]
  · simp [Active_Low_Input_Pin.adapt, Active_Low_Input_Pin.state, h]
  · simp [Active_Low_IO_Pin.adapt, Active_Low_Output_Pin.adapt,
      Active_Low_Input_Pin.adapt, Active_Low_Input_Pin.state, h2,
      Pin_State.is_high]
  · simp [Active_Low_IO_Pin.adapt, Active_Low_Output_Pin.adapt,
      Active_Low_Input_Pin.adapt, Active_Low_Input_Pin.state, h2,
      Pin_State.is_high]

/-- Witness for the amended claim C6 at the concrete example pin. -/
theorem active_low_adapter_spec_witness :
    ((Active_Low_IO_Pin.adapt examplePin).transition_to_high true).1 = .ok ()
  ∧ (Active_Low_IO_Pin.adapt examplePin).state
      ((Active_Low_IO_Pin.adapt examplePin).transition_to_high true).2 = .ok ⟨true⟩ :=
  (active_low_adapter_spec examplePin).2.2.2.2.1 true rfl rfl

/-- Claim C2 counterexample: for the attached pin with mask 1 over the
power-on Driver on a succeeding bus, teardown performs the direction-restore
write at trace index 1 and the level-restore write only at trace index 3, so
the direction-restore write precedes the level-restore write, contradicting
the claimed ordering. -/
theorem teardown_level_first_counterexample :
    (Push_Pull_IO_Pin.disable busOK (Push_Pull_IO_Pin.attach 1) driver0).2 =
      [Event.read_cached .iodir 255, Event.write .iodir 255 (.ok ()),
       Event.read_cached .gpio 0, Event.write .gpio 0 (.ok ())]
  ∧ firstWriteIdx
      (Push_Pull_IO_Pin.disable busOK (Push_Pull_IO_Pin.attach 1) driver0).2
      Register.iodir = some 1
  ∧ firstWriteIdx
      (Push_Pull_IO_Pin.disable busOK (Push_Pull_IO_Pin.attach 1) driver0).2
      Register.gpio = some 3 := by
  decide

/-- The full teardown trace of an attached Push_Pull_IO_Pin: direction
restore (cached read, then write of old_iodir | mask) followed by level
restore (cached read, then write of old_gpio & ~mask), for any bus. -/
theorem disable_trace_spec (bus : Bus) (d : Driver) (mask : Nat)
    (hm : mask < 256) :
    (Push_Pull_IO_Pin.disable bus (Push_Pull_IO_Pin.attach mask) d).2 =
      [Event.read_cached .iodir d.cache.iodir,
       Event.write .iodir (d.cache.iodir ||| mask)
         (bus.write .iodir (d.cache.iodir ||| mask)),
       Event.read_cached .gpio d.cache.gpio,
       Event.write .gpio (d.cache.gpio &&& compl8 mask)
         (bus.write .gpio (d.cache.gpio &&& compl8 mask))] := by
  have hmask : mask % 256 = mask := Nat.mod_eq_of_lt hm
  cases h : bus.write .iodir (d.cache.iodir ||| mask) with
  | ok u =>
    simp [Push_Pull_IO_Pin.disable, Push_Pull_IO_Pin.attach, hmask,
      Driver.write_reg_trace, Driver.write_reg_driver_ok bus d _ _ h,
      Register_Cache.set]
    exact h
  | error e =>
    simp [Push_Pull_IO_Pin.disable, Push_Pull_IO_Pin.attach, hmask,
      Driver.write_reg_trace, Driver.write_reg_driver_error bus d _ _ e h]
    exact h

/-- Claim C2 (amended): teardown of an attached Push_Pull_IO_Pin first writes
the direction register, restoring the masked bit to input (old_iodir | mask),
and only afterwards writes the level register driving the masked bit low
(old_gpio & ~mask); the level-restore write never precedes the
direction-restore write. -/
theorem teardown_direction_then_level (bus : Bus) (d : Driver) (mask : Nat)
    (hm : mask < 256) :
    (Push_Pull_IO_Pin.disable bus (Push_Pull_IO_Pin.attach mask) d).2 =
      [Event.read_cached .iodir d.cache.iodir,
       Event.write .iodir (d.cache.iodir ||| mask)
         (bus.write .iodir (d.cache.iodir ||| mask)),
       Event.read_cached .gpio d.cache.gpio,
       Event.write .gpio (d.cache.gpio &&& compl8 mask)
         (bus.write .gpio (d.cache.gpio &&& compl8 mask))] :=
  disable_trace_spec bus d mask hm

/-- Witness for the amended claim C2: the teardown trace over a failing bus
at mask 2, showing direction restore before level restore with both write
errors discarded. -/
theorem teardown_direction_then_level_witness :
    (Push_Pull_IO_Pin.disable busFail (Push_Pull_IO_Pin.attach 2) driver0).2 =
      [Event.read_cached .iodir 255,
       Event.write .iodir (255 ||| 2) (busFail.write .iodir (255 ||| 2)),
       Event.read_cached .gpio 0,
       Event.write .gpio (0 &&& compl8 2) (busFail.write .gpio (0 &&& compl8 2))] :=
  teardown_direction_then_level busFail driver0 2 (by decide)

/-- The full trace of a successful-level-write initialize on an attached
pin: cached level read, level write, cached direction read, direction
write. -/
theorem initialize_trace_spec (bus : Bus) (d : Driver) (mask : Nat)
    (st : Initial_Pin_State) (hm : mask < 256)
    (hw : bus.write .gpio (init_level_value st d.cache.gpio mask) = .ok ()) :
    ( Push_Pull_IO_Pin.initialize bus (Push_Pull_IO_Pin.attach mask) d st).trace =
      [Event.read_cached .gpio d.cache.gpio,
       Event.write .gpio (init_level_value st d.cache.gpio mask) (.ok ()),
       Event.read_cached .iodir d.cache.iodir,
       Event.write .iodir (d.cache.iodir &&& compl8 mask)
         (bus.write .iodir (d.cache.iodir &&& compl8 mask))] := by
  have hmask : mask % 256 = mask := Nat.mod_eq_of_lt hm
  simp [ Push_Pull_IO_Pin.initialize, Push_Pull_IO_Pin.attach, hmask,
    Driver.write_reg_result, Driver.write_reg_trace, hw,
    Driver.write_reg_driver_ok bus d _ _ hw, Register_Cache.set]

/-- Claim C4: on an attached pin whose level write succeeds, initialize
performs exactly two writes in order — first the output-level register with
the masked bit set for HIGH or cleared for LOW, then the direction register
with the masked bit cleared (output); the level write precedes the direction
write. -/
theorem initialize_level_then_direction (bus : Bus) (d : Driver) (mask : Nat)
    (st : Initial_Pin_State) (hm : mask < 256)
    (hw : bus.write .gpio (init_level_value st d.cache.gpio mask) = .ok ()) :
    ( Push_Pull_IO_Pin.initialize bus (Push_Pull_IO_Pin.attach mask) d st).trace =
      [Event.read_cached .gpio d.cache.gpio,
       Event.write .gpio (init_level_value st d.cache.gpio mask) (.ok ()),
       Event.read_cached .iodir d.cache.iodir,
       Event.write .iodir (d.cache.iodir &&& compl8 mask)
         (bus.write .iodir (d.cache.iodir &&& compl8 mask))]
  ∧ writesOf
      ( Push_Pull_IO_Pin.initialize bus (Push_Pull_IO_Pin.attach mask) d st).trace =
      [(Register.gpio, init_level_value st d.cache.gpio mask),
       (Register.iodir, d.cache.iodir &&& compl8 mask)] := by
  have htr := initialize_trace_spec bus d mask st hm hw
  refine ⟨htr, ?_⟩
  rw [htr]
  rfl

/-- Witness for claim C4 at mask 1, initial state LOW, over the power-on
Driver and a succeeding bus. -/
theorem initialize_level_then_direction_witness :
    ( Push_Pull_IO_Pin.initialize busOK (Push_Pull_IO_Pin.attach 1) driver0 .LOW).trace =
      [Event.read_cached .gpio 0,
       Event.write .gpio (init_level_value .LOW 0 1) (.ok ()),
       Event.read_cached .iodir 255,
       Event.write .iodir (255 &&& compl8 1) (busOK.write .iodir (255 &&& compl8 1))]
  ∧ writesOf
      ( Push_Pull_IO_Pin.initialize busOK (Push_Pull_IO_Pin.attach 1) driver0 .LOW).trace =
      [(Register.gpio, init_level_value .LOW 0 1),
       (Register.iodir, 255 &&& compl8 1)] :=
  initialize_level_then_direction busOK driver0 1 .LOW (by decide) rfl

/-- Claim C7: teardown-time restoration failures are discarded: for any bus,
including one on which every write fails, the push-pull pin teardown still
performs both restore writes and the internally-pulled-up input pin teardown
still performs its disable-pull-up write; the teardown operations return no
error channel at all. -/
theorem teardown_errors_absorbed (bus : Bus) (d : Driver) (mask : Nat)
    (hm : mask < 256) :
    writesOf (Push_Pull_IO_Pin.disable bus (Push_Pull_IO_Pin.attach mask) d).2 =
      [(Register.iodir, d.cache.iodir ||| mask),
       (Register.gpio, d.cache.gpio &&& compl8 mask)]
  ∧ writesOf (Internally_Pulled_Up_Input_Pin.disable bus
      (Internally_Pulled_Up_Input_Pin.attach mask) d).2 =
      [(Register.gppu, d.cache.gppu &&& compl8 mask)] := by
  have hmask : mask % 256 = mask := Nat.mod_eq_of_lt hm
  constructor
  · rw [disable_trace_spec bus d mask hm]
    rfl
  · simp [Internally_Pulled_Up_Input_Pin.disable,
      Internally_Pulled_Up_Input_Pin.attach, hmask, Driver.disable_pull_up,
      Driver.write_reg_trace, writesOf]

/-- Witness for claim C7 over the failing bus at mask 4: both restoration
writes of the push-pull teardown and the single disable-pull-up write of the
input-pin teardown still occur. -/
theorem teardown_errors_absorbed_witness :
    writesOf (Push_Pull_IO_Pin.disable busFail (Push_Pull_IO_Pin.attach 4) driver0).2 =
      [(Register.iodir, 255 ||| 4), (Register.gpio, 0 &&& compl8 4)]
  ∧ writesOf (Internally_Pulled_Up_Input_Pin.disable busFail
      (Internally_Pulled_Up_Input_Pin.attach 4) driver0).2 =
      [(Register.gppu, 0 &&& compl8 4)] :=
  teardown_errors_absorbed busFail driver0 4 (by decide)

/-- Setting a bit leaves every bit outside the mask unchanged. -/
theorem agrees_outside_or (mask old : Nat) :
    agrees_outside mask old (old ||| mask) := by
  intro i h
  simp [Nat.testBit_or, h]

/-- Toggling a bit leaves every bit outside the mask unchanged. -/
theorem agrees_outside_xor (mask old : Nat) :
    agrees_outside mask old (old ^^^ mask) := by
  intro i h
  simp [Nat.testBit_xor, h]

/-- Clearing a bit through the 8-bit complement leaves every bit outside the
mask unchanged, for byte-sized operands. -/
theorem agrees_outside_land_compl8 (mask old : Nat) (ho : old < 256) :
    agrees_outside mask old (old &&& compl8 mask) := by
  intro i h
  rcases Nat.lt_or_ge i 8 with hi | hi
  · have h255 : (255 : Nat).testBit i = true := by
      have he : (255 : Nat) = 2 ^ 8 - 1 := by norm_num
      rw [he, Nat.testBit_two_pow_sub_one]
      simpa using hi
    simp [compl8, Nat.testBit_and, Nat.testBit_xor, h255, h]
  · have hle : (256 : Nat) ≤ 2 ^ i := by
      calc (256 : Nat) = 2 ^ 8 := by norm_num
        _ ≤ 2 ^ i := Nat.pow_le_pow_right (by omega) hi
    have ho2 : old < 2 ^ i := lt_of_lt_of_le ho hle
    simp [Nat.testBit_and, Nat.testBit_lt_two_pow ho2]

/-- Claim C3: each mutating operation of an attached Push_Pull_IO_Pin writes
exactly the documented masked value — old | mask for transition_to_high,
old & ~mask for transition_to_low, old ^ mask for toggle, and the level and
direction bytes for initialize — and every written byte agrees with the
corresponding old register byte on every bit outside the mask, so operating
on one pin never alters bits belonging to another pin of the same
register. -/
theorem mask_isolation (bus : Bus) (d : Driver) (mask : Nat) (hm : mask < 256)
    (hg : d.cache.gpio < 256) (hi : d.cache.iodir < 256) :
    writesOf ( Push_Pull_IO_Pin.transition_to_high bus
        (Push_Pull_IO_Pin.attach mask) d).trace =
      [(Register.gpio, d.cache.gpio ||| mask)]
  ∧ writesOf ( Push_Pull_IO_Pin.transition_to_low bus
        (Push_Pull_IO_Pin.attach mask) d).trace =
      [(Register.gpio, d.cache.gpio &&& compl8 mask)]
  ∧ writesOf ( Push_Pull_IO_Pin.toggle bus (Push_Pull_IO_Pin.attach mask) d).trace =
      [(Register.gpio, d.cache.gpio ^^^ mask)]
  ∧ (writesOf ( Push_Pull_IO_Pin.initialize bus
        (Push_Pull_IO_Pin.attach mask) d .HIGH).trace =
      [(Register.gpio, d.cache.gpio ||| mask)]
    ∨ writesOf ( Push_Pull_IO_Pin.initialize bus
        (Push_Pull_IO_Pin.attach mask) d .HIGH).trace =
      [(Register.gpio, d.cache.gpio ||| mask),
       (Register.iodir, d.cache.iodir &&& compl8 mask)])
  ∧ (writesOf ( Push_Pull_IO_Pin.initialize bus
        (Push_Pull_IO_Pin.attach mask) d .LOW).trace =
      [(Register.gpio, d.cache.gpio &&& compl8 mask)]
    ∨ writesOf ( Push_Pull_IO_Pin.initialize bus
        (Push_Pull_IO_Pin.attach mask) d .LOW).trace =
      [(Register.gpio, d.cache.gpio &&& compl8 mask),
       (Register.iodir, d.cache.iodir &&& compl8 mask)])
  ∧ agrees_outside mask d.cache.gpio (d.cache.gpio ||| mask)
  ∧ agrees_outside mask d.cache.gpio (d.cache.gpio &&& compl8 mask)
  ∧ agrees_outside mask d.cache.gpio (d.cache.gpio ^^^ mask)
  ∧ agrees_outside mask d.cache.iodir (d.cache.iodir &&& compl8 mask) := by
  have hmask : mask % 256 = mask := Nat.mod_eq_of_lt hm
  refine ⟨?_, ?_, ?_, ?_, ?_, agrees_outside_or mask d.cache.gpio,
    agrees_outside_land_compl8 mask d.cache.gpio hg,
    agrees_outside_xor mask d.cache.gpio,
    agrees_outside_land_compl8 mask d.cache.iodir hi⟩
  · have htr : ( Push_Pull_IO_Pin.transition_to_high bus
        (Push_Pull_IO_Pin.attach mask) d).trace =
        [Event.read_cached .gpio d.cache.gpio,
         Event.write .gpio (d.cache.gpio ||| mask)
           (bus.write .gpio (d.cache.gpio ||| mask))] := by
      simp [ Push_Pull_IO_Pin.transition_to_high, Push_Pull_IO_Pin.attach,
        hmask, Driver.write_reg_trace]
    rw [htr]
    rfl
  · have htr : ( Push_Pull_IO_Pin.transition_to_low bus
        (Push_Pull_IO_Pin.attach mask) d).trace =
        [Event.read_cached .gpio d.cache.gpio,
         Event.write .gpio (d.cache.gpio &&& compl8 mask)
           (bus.write .gpio (d.cache.gpio &&& compl8 mask))] := by
      simp [ Push_Pull_IO_Pin.transition_to_low, Push_Pull_IO_Pin.attach,
        hmask, Driver.write_reg_trace]
    rw [htr]
    rfl
  · have htr : ( Push_Pull_IO_Pin.toggle bus
        (Push_Pull_IO_Pin.attach mask) d).trace =
        [Event.read_cached .gpio d.cache.gpio,
         Event.write .gpio (d.cache.gpio ^^^ mask)
           (bus.write .gpio (d.cache.gpio ^^^ mask))] := by
      simp [ Push_Pull_IO_Pin.toggle, Push_Pull_IO_Pin.attach, hmask,
        Driver.write_reg_trace]
    rw [htr]
    rfl
  · cases h : bus.write Register.gpio (d.cache.gpio ||| mask) with
    | ok u =>
      right
      rw [initialize_trace_spec bus d mask .HIGH hm h]
      rfl
    | error e =>
      left
      have htr : ( Push_Pull_IO_Pin.initialize bus
          (Push_Pull_IO_Pin.attach mask) d .HIGH).trace =
          [Event.read_cached .gpio d.cache.gpio,
           Event.write .gpio (d.cache.gpio ||| mask) (.error e)] := by
        simp [ Push_Pull_IO_Pin.initialize, Push_Pull_IO_Pin.attach, hmask,
          Driver.write_reg_result, Driver.write_reg_trace, init_level_value, h]
      rw [htr]
      rfl
  · cases h : bus.write Register.gpio (d.cache.gpio &&& compl8 mask) with
    | ok u =>
      right
      rw [initialize_trace_spec bus d mask .LOW hm h]
      rfl
    | error e =>
      left
      have htr : ( Push_Pull_IO_Pin.initialize bus
          (Push_Pull_IO_Pin.attach mask) d .LOW).trace =
          [Event.read_cached .gpio d.cache.gpio,
           Event.write .gpio (d.cache.gpio &&& compl8 mask) (.error e)] := by
        simp [ Push_Pull_IO_Pin.initialize, Push_Pull_IO_Pin.attach, hmask,
          Driver.write_reg_result, Driver.write_reg_trace, init_level_value, h]
      rw [htr]
      rfl

/-- Witness for claim C3 at mask 4 over the power-on Driver and a succeeding
bus. -/
theorem mask_isolation_witness :
    writesOf ( Push_Pull_IO_Pin.transition_to_high busOK
        (Push_Pull_IO_Pin.attach 4) driver0).trace = [(Register.gpio, 0 ||| 4)]
  ∧ writesOf ( Push_Pull_IO_Pin.transition_to_low busOK
        (Push_Pull_IO_Pin.attach 4) driver0).trace =
      [(Register.gpio, 0 &&& compl8 4)]
  ∧ writesOf ( Push_Pull_IO_Pin.toggle busOK
        (Push_Pull_IO_Pin.attach 4) driver0).trace = [(Register.gpio, 0 ^^^ 4)]
  ∧ (writesOf ( Push_Pull_IO_Pin.initialize busOK
        (Push_Pull_IO_Pin.attach 4) driver0 .HIGH).trace =
      [(Register.gpio, 0 ||| 4)]
    ∨ writesOf ( Push_Pull_IO_Pin.initialize busOK
        (Push_Pull_IO_Pin.attach 4) driver0 .HIGH).trace =
      [(Register.gpio, 0 ||| 4), (Register.iodir, 255 &&& compl8 4)])
  ∧ (writesOf ( Push_Pull_IO_Pin.initialize busOK
        (Push_Pull_IO_Pin.attach 4) driver0 .LOW).trace =
      [(Register.gpio, 0 &&& compl8 4)]
    ∨ writesOf ( Push_Pull_IO_Pin.initialize busOK
        (Push_Pull_IO_Pin.attach 4) driver0 .LOW).trace =
      [(Register.gpio, 0 &&& compl8 4), (Register.iodir, 255 &&& compl8 4)])
  ∧ agrees_outside 4 0 (0 ||| 4)
  ∧ agrees_outside 4 0 (0 &&& compl8 4)
  ∧ agrees_outside 4 0 (0 ^^^ 4)
  ∧ agrees_outside 4 255 (255 &&& compl8 4) :=
  mask_isolation busOK driver0 4 (by decide) (by decide) (by decide)

/-- Claim C5: a default-constructed or moved-from pin is detached: its
teardown issues no bus transactions and no Driver calls, and every pin
operation is a no-op returning success, for both pin types. -/
theorem detached_pin_no_op (bus : Bus) (d : Driver) (st : Initial_Pin_State)
    (ips : Initial_Pull_Up_State) (p : Push_Pull_IO_Pin)
    (q : Internally_Pulled_Up_Input_Pin) :
    (Push_Pull_IO_Pin.move p).2 = Push_Pull_IO_Pin.detached
  ∧ Push_Pull_IO_Pin.disable bus Push_Pull_IO_Pin.detached d = (d, [])
  ∧ Push_Pull_IO_Pin.transition_to_high bus Push_Pull_IO_Pin.detached d =
      ⟨.ok (), d, []⟩
  ∧ Push_Pull_IO_Pin.transition_to_low bus Push_Pull_IO_Pin.detached d =
      ⟨.ok (), d, []⟩
  ∧ Push_Pull_IO_Pin.toggle bus Push_Pull_IO_Pin.detached d = ⟨.ok (), d, []⟩
  ∧ Push_Pull_IO_Pin.initialize bus Push_Pull_IO_Pin.detached d st =
      ⟨.ok (), d, []⟩
  ∧ Push_Pull_IO_Pin.state bus Push_Pull_IO_Pin.detached d =
      ⟨.ok ⟨false⟩, d, []⟩
  ∧ (Internally_Pulled_Up_Input_Pin.move q).2 =
      Internally_Pulled_Up_Input_Pin.detached
  ∧ Internally_Pulled_Up_Input_Pin.disable bus
      Internally_Pulled_Up_Input_Pin.detached d = (d, [])
  ∧ Internally_Pulled_Up_Input_Pin.initialize bus
      Internally_Pulled_Up_Input_Pin.detached d ips = ⟨.ok (), d, []⟩
  ∧ Internally_Pulled_Up_Input_Pin.enable_pull_up bus
      Internally_Pulled_Up_Input_Pin.detached d = ⟨.ok (), d, []⟩
  ∧ Internally_Pulled_Up_Input_Pin.disable_pull_up bus
      Internally_Pulled_Up_Input_Pin.detached d = ⟨.ok (), d, []⟩
  ∧ Internally_Pulled_Up_Input_Pin.state bus
      Internally_Pulled_Up_Input_Pin.detached d = ⟨.ok ⟨false⟩, d, []⟩ :=
  ⟨rfl, rfl, rfl, rfl, rfl, rfl, rfl, rfl, rfl, rfl, rfl, rfl, rfl⟩

/-- Claim C9: two successive successful toggles of an attached pin restore
the cached level register — indeed the whole Driver — to its pre-toggle
value, the second toggle writing back the original byte. -/
theorem toggle_twice_restores (bus : Bus) (d : Driver) (mask : Nat)
    (hm : mask < 256) (hg : d.cache.gpio < 256)
    (h1 : ( Push_Pull_IO_Pin.toggle bus (Push_Pull_IO_Pin.attach mask) d).result =
      .ok ())
    (h2 : ( Push_Pull_IO_Pin.toggle bus (Push_Pull_IO_Pin.attach mask)
        ( Push_Pull_IO_Pin.toggle bus (Push_Pull_IO_Pin.attach mask) d).driver).result =
      .ok ()) :
    ( Push_Pull_IO_Pin.toggle bus (Push_Pull_IO_Pin.attach mask)
        ( Push_Pull_IO_Pin.toggle bus (Push_Pull_IO_Pin.attach mask) d).driver).driver =
      d
  ∧ writesOf ( Push_Pull_IO_Pin.toggle bus (Push_Pull_IO_Pin.attach mask)
        ( Push_Pull_IO_Pin.toggle bus (Push_Pull_IO_Pin.attach mask) d).driver).trace =
      [(Register.gpio, d.cache.gpio)] := by
  obtain ⟨⟨r1, r2, r3, r4, r5, r6, r7, r8, r9⟩⟩ := d
  have hg8 : r8 < 256 := hg
  have hmask : mask % 256 = mask := Nat.mod_eq_of_lt hm
  have hxl : r8 ^^^ mask < 256 := Nat.xor_lt_two_pow (n := 8) hg8 hm
  have hw1 : bus.write Register.gpio (r8 ^^^ mask) = .ok () := by
    simpa [ Push_Pull_IO_Pin.toggle, Push_Pull_IO_Pin.attach, hmask,
      Driver.write_reg_result] using h1
  have hd1 : ( Push_Pull_IO_Pin.toggle bus (Push_Pull_IO_Pin.attach mask)
      ⟨⟨r1, r2, r3, r4, r5, r6, r7, r8, r9⟩⟩).driver =
      ⟨⟨r1, r2, r3, r4, r5, r6, r7, r8 ^^^ mask, r9⟩⟩ := by
    simp [ Push_Pull_IO_Pin.toggle, Push_Pull_IO_Pin.attach, hmask,
      Driver.write_reg_driver_ok _ _ _ _ hw1, Register_Cache.set,
      Nat.mod_eq_of_lt hxl]
  rw [hd1] at h2 ⊢
  have hw2 : bus.write Register.gpio (r8 ^^^ mask ^^^ mask) = .ok () := by
    simpa [ Push_Pull_IO_Pin.toggle, Push_Pull_IO_Pin.attach, hmask,
      Driver.write_reg_result] using h2
  have hcan : r8 ^^^ mask ^^^ mask = r8 := Nat.xor_cancel_right mask r8
  constructor
  · have hd2 : ( Push_Pull_IO_Pin.toggle bus (Push_Pull_IO_Pin.attach mask)
        ⟨⟨r1, r2, r3, r4, r5, r6, r7, r8 ^^^ mask, r9⟩⟩).driver =
        ⟨⟨r1, r2, r3, r4, r5, r6, r7, (r8 ^^^ mask ^^^ mask) % 256, r9⟩⟩ := by
      simp [ Push_Pull_IO_Pin.toggle, Push_Pull_IO_Pin.attach, hmask,
        Driver.write_reg_driver_ok _ _ _ _ hw2, Register_Cache.set]
    rw [hd2, hcan]
    simp [Nat.mod_eq_of_lt hg8]
  · have htr2 : ( Push_Pull_IO_Pin.toggle bus (Push_Pull_IO_Pin.attach mask)
        ⟨⟨r1, r2, r3, r4, r5, r6, r7, r8 ^^^ mask, r9⟩⟩).trace =
        [Event.read_cached .gpio (r8 ^^^ mask),
         Event.write .gpio (r8 ^^^ mask ^^^ mask)
           (bus.write Register.gpio (r8 ^^^ mask ^^^ mask))] := by
      simp [ Push_Pull_IO_Pin.toggle, Push_Pull_IO_Pin.attach, hmask,
        Driver.write_reg_trace]
    rw [htr2, hcan]
    rfl

/-- Witness for claim C9: two toggles at mask 4 over the power-on Driver on
a succeeding bus restore the Driver, the second toggle writing zero. -/
theorem toggle_twice_restores_witness :
    ( Push_Pull_IO_Pin.toggle busOK (Push_Pull_IO_Pin.attach 4)
        ( Push_Pull_IO_Pin.toggle busOK (Push_Pull_IO_Pin.attach 4) driver0).driver).driver =
      driver0
  ∧ writesOf ( Push_Pull_IO_Pin.toggle busOK (Push_Pull_IO_Pin.attach 4)
        ( Push_Pull_IO_Pin.toggle busOK (Push_Pull_IO_Pin.attach 4) driver0).driver).trace =
      [(Register.gpio, 0)] :=
  toggle_twice_restores busOK driver0 4 (by decide) (by decide) rfl rfl

end Picolib
